import Mathlib

set_option autoImplicit false

/-!
Shallow embedding of the Galileo trace-logging client found in this
repository, with theorems checking its natural-language specification.

Two source variants are modelled:

* namespace `V2` — the buffered logger of `src/golang/v2/main.go`
  (trace buffer of concluded traces, flushed in one request);
* namespace `P1` — the single-trace logger of `src/unnamed/part_001`
  (one current trace, flushed directly, with a dry-run mode).

Modelling conventions, shared by both variants:

* Go `time.Time` and durations are modelled as `Int` nanoseconds; each
  operation that reads the clock (`time.Now()`) takes the reading as an
  explicit `now` argument.
* `uuid.New()` is modelled by a fresh-identifier counter `nextId`
  threaded through the logger state; freshness is what the code relies on.
* Go `map[string]interface` values are modelled as association lists of
  `String × Value` up to lookup (Go maps are unordered); a `nil` map and
  an empty map are identified, which is sound here because the code only
  checks `== nil` before writing, and writing to the model of an empty
  map behaves the same.
* Network calls are modelled by passing the outcome of the HTTP exchange
  (transport error, or a status code with a response) as an argument; the
  logger code is translated faithfully around that point.
* `log.Println` / `log.Printf` output is modelled as a `List String` of
  emitted lines returned alongside the new state; functions containing no
  log statement return `[]`.
* The mutex `mu` is dropped: every operation is a whole critical section,
  so the sequential model runs operations atomically in order.
-/

/-- Tagged values standing for the Go `interface` payloads actually used
by this code: strings, integers and booleans. -/
inductive Value where
| vStr : String → Value
| vInt : Int → Value
| vBool : Bool → Value
deriving DecidableEq, Repr

/-- Model of Go `map[string]interface`, as an association list read
through `mget` and written through `mset`. -/
abbrev Metadata := List (String × Value)

/-- Lookup of a key, modelling Go `m[k]`. -/
def mget (m : Metadata) (k : String) : Option Value :=
match m with
| [] => none
| p :: rest => if p.1 = k then some p.2 else mget rest k

/-- Removal of a key from the association list. -/
def mremove (m : Metadata) (k : String) : Metadata :=
match m with
| [] => []
| p :: rest => if p.1 = k then mremove rest k else p :: mremove rest k

/-- Update of a key, modelling Go `m[k] = v` (maps are unordered, so any
representation with the right lookup behaviour is faithful). -/
def mset (m : Metadata) (k : String) (v : Value) : Metadata :=
(k, v) :: mremove m k

/-- Model of Go `strings.Join(tags, ",")`. -/
def joinComma (tags : List String) : String :=
String.intercalate "," tags

/-- Outcome of one HTTP exchange whose response body is not inspected
further by the caller: either a transport error (`httpClient.Do` / request
construction failed) or a status code. -/
inductive NetOutcome where
| transportError : NetOutcome
| httpStatus : Nat → NetOutcome
deriving DecidableEq, Repr

/-- One entry of a remote listing of projects or log streams, carrying
the two fields the code reads (`ID`, `Name`). -/
structure RemoteEntry where
id : String
name : String
deriving DecidableEq, Repr

/-- Outcome of a listing request (`GET /projects/all`,
`GET .../log_streams`, ...): transport error, or status plus decoded
entries. -/
inductive ListResult where
| transportError : ListResult
| response : Nat → List RemoteEntry → ListResult
deriving DecidableEq, Repr

/-- Outcome of a creation request (`POST /projects`, ...): transport
error, or status plus the identifier decoded from the response. -/
inductive CreateResult where
| transportError : CreateResult
| response : Nat → String → CreateResult
deriving DecidableEq, Repr

namespace V2

/-- Go struct `LoggerConfig` of `src/golang/v2/main.go`. -/
structure LoggerConfig where
projectName : String
logStreamName : String
apiKey : String
authMethod : String
deriving DecidableEq, Repr

/-- Go struct `TraceConfig`. -/
structure TraceConfig where
name : String
input : String
tags : List String
metadata : Metadata
deriving DecidableEq, Repr

/-- Go struct `SpanConfig`; the field `Type` is renamed `spanType`
because `type` is a Lean keyword. -/
structure SpanConfig where
name : String
input : Value
output : Value
durationNs : Int
metadata : Metadata
tags : List String
error : String
spanType : String
deriving DecidableEq, Repr

/-- Go struct `LlmSpanConfig`. -/
structure LlmSpanConfig where
input : String
output : String
model : String
numInputTokens : Int
numOutputTokens : Int
totalTokens : Int
durationNs : Int
metadata : Metadata
tags : List String
deriving DecidableEq, Repr

/-- Go struct `ConcludeConfig`. -/
structure ConcludeConfig where
output : String
durationNs : Int
tags : List String
deriving DecidableEq, Repr

/-- Go struct `GalileoSpan`; `ID` is the fresh-counter model of the UUID,
`Type` is renamed `spanType`. -/
structure GalileoSpan where
id : Nat
name : String
input : Value
output : Value
startTime : Int
endTime : Int
spanType : String
status : String
metadata : Metadata
deriving DecidableEq, Repr

/-- Go struct `GalileoTrace`; `Output` and `EndTime` carry `omitempty`
and stay at their zero value until `Conclude`, modelled as `Option`. -/
structure GalileoTrace where
id : Nat
name : String
input : String
output : Option String
spans : List GalileoSpan
metadata : Metadata
startTime : Int
endTime : Option Int
deriving DecidableEq, Repr

/-- Go struct `Logger` (the `httpClient` and the mutex `mu` are dropped,
see the module comment; `nextId` models the UUID source). -/
structure Logger where
config : LoggerConfig
projectID : String
logStreamID : String
accessToken : String
sessionID : String
traceBuffer : List GalileoTrace
currentTrace : Option GalileoTrace
nextId : Nat
deriving DecidableEq, Repr

/-- Metadata computed at the top of `StartTraceWithContext`: the caller
metadata, with the joined tags under key `tags` when tags are present. -/
def startMetadata (config : TraceConfig) : Metadata :=
if config.tags ≠ [] then mset config.metadata "tags" (Value.vStr (joinComma config.tags))
else config.metadata

/-- Trace literal built by `StartTraceWithContext`. -/
def traceFromConfig (id : Nat) (config : TraceConfig) (now : Int) : GalileoTrace :=
{ id := id, name := config.name, input := config.input, output := none,
  spans := [], metadata := startMetadata config, startTime := now, endTime := none }

/-- Go method `Logger.StartTraceWithContext`: overwrites `currentTrace`
with a fresh trace; the buffer is not touched. -/
def StartTraceWithContext (l : Logger) (config : TraceConfig) (now : Int) : Logger :=
{ l with currentTrace := some (traceFromConfig l.nextId config now),
         nextId := l.nextId + 1 }

/-- Span literal built by `AddSpan`, including its metadata/status/type
normalisation. -/
def spanFromConfig (id : Nat) (config : SpanConfig) (now : Int) : GalileoSpan :=
let md1 := if config.tags ≠ [] then mset config.metadata "tags" (Value.vStr (joinComma config.tags))
  else config.metadata
let status := if config.error ≠ "" then "ERROR" else "SUCCESS"
let md2 := if config.error ≠ "" then mset md1 "error" (Value.vStr config.error) else md1
let spanType := if config.spanType = "" then "tool" else config.spanType
{ id := id, name := config.name, input := config.input, output := config.output,
  startTime := now, endTime := now + config.durationNs, spanType := spanType,
  status := status, metadata := md2 }

/-- Go method `Logger.AddSpan`: warns and no-ops without an active trace,
otherwise appends the configured span to the current trace. -/
def AddSpan (l : Logger) (config : SpanConfig) (now : Int) : Logger × List String :=
match l.currentTrace with
| none => (l, ["Warning: AddSpan called without an active trace."])
| some t =>
  ({ l with currentTrace := some { t with spans := t.spans ++ [spanFromConfig l.nextId config now] },
            nextId := l.nextId + 1 }, [])

/-- Span literal built by `AddLlmSpan`: name `llm-span`, type `llm`, and
metadata extended with the model name and the three token counts. -/
def llmSpanFromConfig (id : Nat) (config : LlmSpanConfig) (now : Int) : GalileoSpan :=
let md1 := if config.tags ≠ [] then mset config.metadata "tags" (Value.vStr (joinComma config.tags))
  else config.metadata
let md2 := mset md1 "model" (Value.vStr config.model)
let md3 := mset md2 "llm.token_count.input" (Value.vInt config.numInputTokens)
let md4 := mset md3 "llm.token_count.output" (Value.vInt config.numOutputTokens)
let md5 := mset md4 "llm.token_count.total" (Value.vInt config.totalTokens)
{ id := id, name := "llm-span", input := Value.vStr config.input,
  output := Value.vStr config.output, startTime := now,
  endTime := now + config.durationNs, spanType := "llm", status := "SUCCESS",
  metadata := md5 }

/-- Go method `Logger.AddLlmSpan`. -/
def AddLlmSpan (l : Logger) (config : LlmSpanConfig) (now : Int) : Logger × List String :=
match l.currentTrace with
| none => (l, ["Warning: AddLlmSpan called without an active trace."])
| some t =>
  ({ l with currentTrace := some { t with spans := t.spans ++ [llmSpanFromConfig l.nextId config now] },
            nextId := l.nextId + 1 }, [])

/-- Trace as finalised by `Conclude`: output set, end time = start time
plus the duration, and the joined tags merged into the metadata under
`completion_tags` when tags are present. -/
def concludedTrace (t : GalileoTrace) (config : ConcludeConfig) : GalileoTrace :=
let t1 := { t with output := some config.output,
                   endTime := some (t.startTime + config.durationNs) }
if config.tags ≠ [] then
  { t1 with metadata := mset t1.metadata "completion_tags" (Value.vStr (joinComma config.tags)) }
else t1

/-- Go method `Logger.Conclude`: warns and no-ops without an active
trace, otherwise finalises the current trace, appends it to the tail of
the buffer and clears the current-trace reference. -/
def Conclude (l : Logger) (config : ConcludeConfig) : Logger × List String :=
match l.currentTrace with
| none => (l, ["Warning: Conclude called without an active trace."])
| some t =>
  ({ l with traceBuffer := l.traceBuffer ++ [concludedTrace t config],
            currentTrace := none }, [])

/-- Result of `FlushWithContext`: the new state, whether the call
returned without error, and whether a network request was performed. -/
structure FlushResult where
state : Logger
ok : Bool
networkCalled : Bool
deriving DecidableEq, Repr

/-- Go method `Logger.FlushWithContext`: an empty buffer returns nil at
once with no request; otherwise the whole buffer is serialised into one
ingestion request (`json.Marshal` cannot fail on these structs, so that
branch is unreachable and omitted); on 200/201 the buffer is cleared; on
a transport error or any other status the buffer is left unchanged. -/
def FlushWithContext (l : Logger) (net : NetOutcome) : FlushResult :=
if l.traceBuffer = [] then ⟨l, true, false⟩
else
  match net with
  | NetOutcome.transportError => ⟨l, false, true⟩
  | NetOutcome.httpStatus code =>
    if code = 200 ∨ code = 201 then ⟨{ l with traceBuffer := [] }, true, true⟩
    else ⟨l, false, true⟩

/-- Scan of a decoded listing for an exact name match, as written in the
loop of `getOrCreateProject` / `getOrCreateLogStream`. -/
def findByName (entries : List RemoteEntry) (name : String) : Option String :=
match entries with
| [] => none
| e :: rest => if e.name = name then some e.id else findByName rest name

/-- Go method `Logger.createProject` / `Logger.createLogStream`: accepts
200 or 201 and returns the decoded identifier, otherwise fails. -/
def createResource (create : CreateResult) : Except String String :=
match create with
| CreateResult.transportError => Except.error "transport error"
| CreateResult.response code newId =>
  if code = 200 ∨ code = 201 then Except.ok newId
  else Except.error "bad status"

/-- Outcome of an identifier resolution, together with whether the
creation endpoint was called. -/
structure ResolveOutcome where
result : Except String String
createCalled : Bool
deriving Repr

/-- Go method `Logger.getOrCreateProject`: a transport error on the
listing propagates; on a 200 listing an exact name match returns that
identifier with no creation; otherwise (no match, or a non-200 status)
the project is created. -/
def getOrCreateProject (projectName : String) (listing : ListResult) (create : CreateResult) : ResolveOutcome :=
match listing with
| ListResult.transportError => ⟨Except.error "transport error", false⟩
| ListResult.response code entries =>
  if code = 200 then
    match findByName entries projectName with
    | some id => ⟨Except.ok id, false⟩
    | none => ⟨createResource create, true⟩
  else ⟨createResource create, true⟩

/-- Go method `Logger.getOrCreateLogStream`: same shape as
`getOrCreateProject`, scoped to the project. -/
def getOrCreateLogStream (logStreamName : String) (listing : ListResult) (create : CreateResult) : ResolveOutcome :=
match listing with
| ListResult.transportError => ⟨Except.error "transport error", false⟩
| ListResult.response code entries =>
  if code = 200 then
    match findByName entries logStreamName with
    | some id => ⟨Except.ok id, false⟩
    | none => ⟨createResource create, true⟩
  else ⟨createResource create, true⟩

/-- Go method `Logger.getAccessToken`: accepts exactly status 200 and
returns the decoded access token. -/
def getAccessToken (net : CreateResult) : Except String String :=
match net with
| CreateResult.transportError => Except.error "transport error"
| CreateResult.response code token =>
  if code = 200 then Except.ok token else Except.error "bad status"

/-- Result of `NewLoggerWithConfig`: either the process aborts through
`log.Fatal` (modelled as `fatal` with the message) or a logger is built. -/
inductive InitResult where
| fatal : String → InitResult
| ok : Logger → InitResult
deriving Repr

/-- Go function `NewLoggerWithConfig` of the v2 variant: a missing API
key is fatal; then the bearer token (when that auth method is selected),
the project identifier and the log-stream identifier are resolved over
the network, each failure being fatal. There is no dry-run mode in this
variant. -/
def NewLoggerWithConfig (config : LoggerConfig) (tokenNet : CreateResult)
    (projList : ListResult) (projCreate : CreateResult)
    (streamList : ListResult) (streamCreate : CreateResult) : InitResult :=
if config.apiKey = "" then InitResult.fatal "GALILEO_API_KEY must be provided"
else
  match (if config.authMethod = "bearer_token" then getAccessToken tokenNet else Except.ok "") with
  | Except.error e => InitResult.fatal ("Failed to get access token: " ++ e)
  | Except.ok token =>
    match (getOrCreateProject config.projectName projList projCreate).result with
    | Except.error e => InitResult.fatal ("Failed to get or create project: " ++ e)
    | Except.ok pid =>
      match (getOrCreateLogStream config.logStreamName streamList streamCreate).result with
      | Except.error e => InitResult.fatal ("Failed to get or create log stream: " ++ e)
      | Except.ok sid =>
        InitResult.ok { config := config, projectID := pid, logStreamID := sid,
                        accessToken := token, sessionID := "", traceBuffer := [],
                        currentTrace := none, nextId := 0 }

end V2

namespace P1

/-- Go struct `LoggerConfig` of `src/unnamed/part_001` (the `HTTPClient`
field is dropped, see the module comment). -/
structure LoggerConfig where
projectID : String
logStreamID : String
apiKey : String
baseURL : String
dryRun : Bool
deriving DecidableEq, Repr

/-- Go struct `TraceConfig` of the single-trace variant. -/
structure TraceConfig where
input : String
tags : List String
deriving DecidableEq, Repr

/-- Go struct `SpanConfig` of the single-trace variant. -/
structure SpanConfig where
name : String
input : Value
output : Value
durationNs : Int
tags : List String
metadata : Metadata
deriving DecidableEq, Repr

/-- Go struct `LlmSpanConfig` of the single-trace variant. -/
structure LlmSpanConfig where
input : String
output : String
model : String
numInputTokens : Int
numOutputTokens : Int
totalTokens : Int
durationNs : Int
metadata : Metadata
tags : List String
deriving DecidableEq, Repr

/-- Go struct `ConcludeConfig` of the single-trace variant. -/
structure ConcludeConfig where
output : String
durationNs : Int
tags : List String
deriving DecidableEq, Repr

/-- Go struct `Span` of the single-trace variant: note there is no kind
or type field; an LLM span is marked by its name. -/
structure Span where
name : String
input : Value
output : Value
durationNs : Int
metadata : Metadata
tags : List String
deriving DecidableEq, Repr

/-- Go struct `Trace` of the single-trace variant: no timestamps, only a
duration; `output` and `durationNs` stay at their zero values until
`Conclude`. -/
structure Trace where
input : String
output : String
durationNs : Int
spans : List Span
tags : List String
metadata : Metadata
deriving DecidableEq, Repr

/-- Go struct `Logger` of the single-trace variant: only a config and
the current trace; there is no trace buffer. -/
structure Logger where
config : LoggerConfig
currentTrace : Option Trace
deriving DecidableEq, Repr

/-- Go function `NewLoggerWithConfig` of the single-trace variant: fills
the base URL default, then degrades to dry-run mode when the API key,
the project identifier or the log-stream identifier is missing. It never
fails. -/
def NewLoggerWithConfig (config : LoggerConfig) : Logger :=
let c1 := if config.baseURL = "" then { config with baseURL := "https://api.galileo.ai/v2" } else config
let c2 := if c1.apiKey = "" then { c1 with dryRun := true } else c1
let c3 := if ¬c2.dryRun ∧ c2.projectID = "" then { c2 with dryRun := true } else c2
let c4 := if ¬c3.dryRun ∧ c3.logStreamID = "" then { c3 with dryRun := true } else c3
{ config := c4, currentTrace := none }

/-- Go method `Logger.StartTraceWithContext` of the single-trace
variant: overwrites the current trace; nothing is logged. -/
def StartTraceWithContext (l : Logger) (config : TraceConfig) : Logger :=
{ l with currentTrace := some { input := config.input, output := "", durationNs := 0,
                                spans := [], tags := config.tags, metadata := [] } }

/-- Span literal built by `AddSpan` of the single-trace variant. -/
def spanFromConfig (config : SpanConfig) : Span :=
{ name := config.name, input := config.input, output := config.output,
  durationNs := config.durationNs, metadata := config.metadata, tags := config.tags }

/-- Go method `Logger.AddSpan` of the single-trace variant: with no
active trace it returns nil and logs nothing; otherwise it appends the
span and returns it. The second component is the returned span pointer,
the third the (always empty) log output. -/
def AddSpan (l : Logger) (config : SpanConfig) : Logger × Option Span × List String :=
match l.currentTrace with
| none => (l, none, [])
| some t =>
  let span := spanFromConfig config
  ({ l with currentTrace := some { t with spans := t.spans ++ [span] } }, some span, [])

/-- Span literal built by `AddLlmSpan` of the single-trace variant: name
`llm`, metadata extended with the model name and the three token counts. -/
def llmSpanFromConfig (config : LlmSpanConfig) : Span :=
let md1 := mset config.metadata "model" (Value.vStr config.model)
let md2 := mset md1 "num_input_tokens" (Value.vInt config.numInputTokens)
let md3 := mset md2 "num_output_tokens" (Value.vInt config.numOutputTokens)
let md4 := mset md3 "total_tokens" (Value.vInt config.totalTokens)
{ name := "llm", input := Value.vStr config.input, output := Value.vStr config.output,
  durationNs := config.durationNs, metadata := md4, tags := config.tags }

/-- Go method `Logger.AddLlmSpan` of the single-trace variant: with no
active trace it silently no-ops (no log statement); otherwise it appends
the LLM span. -/
def AddLlmSpan (l : Logger) (config : LlmSpanConfig) : Logger × List String :=
match l.currentTrace with
| none => (l, [])
| some t =>
  ({ l with currentTrace := some { t with spans := t.spans ++ [llmSpanFromConfig config] } }, [])

/-- Go method `Logger.Conclude` of the single-trace variant: with no
active trace it silently no-ops (no log statement); otherwise it sets
the output and duration and appends the tags. The trace stays current:
nothing is moved to any buffer and the current-trace reference is kept. -/
def Conclude (l : Logger) (config : ConcludeConfig) : Logger × List String :=
match l.currentTrace with
| none => (l, [])
| some t =>
  ({ l with currentTrace := some { t with output := config.output,
                                          durationNs := config.durationNs,
                                          tags := t.tags ++ config.tags } }, [])

/-- Result of `FlushWithContext` of the single-trace variant: new state,
whether the call returned without error, whether a network request was
performed, and the trace written to the local sink (the dry-run log) if
any. -/
structure FlushResult where
state : Logger
ok : Bool
networkCalled : Bool
localSink : Option Trace
deriving DecidableEq, Repr

/-- Go method `Logger.FlushWithContext` of the single-trace variant:
with no current trace it fails (`no trace to flush`); otherwise the
current trace is taken and cleared; serialisation cannot fail on these
structs, so that restore branch is unreachable and omitted; in dry-run
mode the serialised trace is written to the log and the call succeeds
with no network request; otherwise the trace is posted, and on a
transport error or a status other than 200/201 the taken trace is
restored as the current trace. -/
def FlushWithContext (l : Logger) (net : NetOutcome) : FlushResult :=
match l.currentTrace with
| none => ⟨l, false, false, none⟩
| some traceToFlush =>
  let cleared : Logger := { l with currentTrace := none }
  if l.config.dryRun then ⟨cleared, true, false, some traceToFlush⟩
  else
    match net with
    | NetOutcome.transportError => ⟨{ cleared with currentTrace := some traceToFlush }, false, true, none⟩
    | NetOutcome.httpStatus code =>
      if code = 200 ∨ code = 201 then ⟨cleared, true, true, none⟩
      else ⟨{ cleared with currentTrace := some traceToFlush }, false, true, none⟩

/-- Go function `getLogStreamIDByName` of the single-trace variant: a
transport error or a non-200 status fails; otherwise it returns the
identifier of the FIRST decoded entry regardless of its name, or the
empty string when the listing is empty. -/
def getLogStreamIDByName (listing : ListResult) : Except String String :=
match listing with
| ListResult.transportError => Except.error "failed to get log streams"
| ListResult.response code entries =>
  if code = 200 then
    match entries with
    | [] => Except.ok ""
    | e :: _ => Except.ok e.id
  else Except.error "bad status"

/-- Go function `createLogStream` of the single-trace variant: accepts
exactly status 201 and returns the decoded identifier. -/
def createLogStream (create : CreateResult) : Except String String :=
match create with
| CreateResult.transportError => Except.error "transport error"
| CreateResult.response code newId =>
  if code = 201 then Except.ok newId else Except.error "bad status"

/-- Outcome of a single-trace-variant resolution, together with whether
the creation endpoint was called. -/
structure ResolveOutcome where
result : Except String String
createCalled : Bool
deriving Repr

/-- Go function `getOrCreateLogStreamID` of the single-trace variant:
requires a project identifier and a name, searches first (taking the
first listing entry, see `getLogStreamIDByName`), and creates only when
the search returned the empty identifier. -/
def getOrCreateLogStreamID (projectID logStreamName : String) (listing : ListResult) (create : CreateResult) : ResolveOutcome :=
if projectID = "" then ⟨Except.error "project ID is required to get or create a log stream", false⟩
else if logStreamName = "" then ⟨Except.error "log stream name is required", false⟩
else
  match getLogStreamIDByName listing with
  | Except.error e => ⟨Except.error e, false⟩
  | Except.ok logStreamID =>
    if logStreamID ≠ "" then ⟨Except.ok logStreamID, false⟩
    else
      match createLogStream create with
      | Except.error e => ⟨Except.error e, true⟩
      | Except.ok newId => ⟨Except.ok newId, true⟩

/-- Go function `getProjectIDByName` of the single-trace variant: unlike
the log-stream search, this one scans the decoded listing for an exact
name match, returning the empty string when none matches. -/
def getProjectIDByName (projectName : String) (listing : ListResult) : Except String String :=
match listing with
| ListResult.transportError => Except.error "failed to list projects"
| ListResult.response code entries =>
  if code = 200 then
    match V2.findByName entries projectName with
    | some id => Except.ok id
    | none => Except.ok ""
  else Except.error "bad status"

end P1

/-! Helper lemmas about the metadata map model. -/

theorem mget_mset_same (m : Metadata) (k : String) (v : Value) :
    mget (mset m k v) k = some v := by
simp [mget, mset]

theorem mget_mremove_ne (m : Metadata) (k k' : String) (h : k' ≠ k) :
    mget (mremove m k) k' = mget m k' := by
have hkk : ¬(k = k') := fun hh => h hh.symm
induction m with
| nil => rfl
| cons p rest ih =>
  by_cases hp : p.1 = k
  · have hp' : ¬(p.1 = k') := by rw [hp]; exact hkk
    simp [mremove, hp, mget, hp', hkk, h, ih]
  · by_cases hq : p.1 = k'
    · simp [mremove, hp, mget, hq, hkk, h]
    · simp [mremove, hp, mget, hq, hkk, h, ih]

theorem mget_mset_ne (m : Metadata) (k k' : String) (v : Value) (h : k' ≠ k) :
    mget (mset m k v) k' = mget m k' := by
have hk : ¬(k = k') := fun hh => h hh.symm
simp only [mset, mget, hk, if_false]
exact mget_mremove_ne m k k' h

/-! Concrete example states used by the witness theorems. -/

/-- Example trace configuration for the buffered variant. -/
def exTraceConfig : V2.TraceConfig :=
{ name := "t", input := "in", tags := [], metadata := [] }

/-- Example concluded trace sitting in a buffer. -/
def exTrace : V2.GalileoTrace := V2.traceFromConfig 0 exTraceConfig 5

/-- Example logger configuration for the buffered variant. -/
def exLoggerConfig : V2.LoggerConfig :=
{ projectName := "p", logStreamName := "s", apiKey := "k", authMethod := "api_key" }

/-- Example buffered logger holding one trace in its buffer. -/
def exLogger : V2.Logger :=
{ config := exLoggerConfig, projectID := "pid", logStreamID := "sid",
  accessToken := "", sessionID := "", traceBuffer := [exTrace],
  currentTrace := none, nextId := 1 }

/-- Example buffered logger with an empty buffer and an active trace. -/
def exLoggerActive : V2.Logger :=
{ config := exLoggerConfig, projectID := "pid", logStreamID := "sid",
  accessToken := "", sessionID := "", traceBuffer := [],
  currentTrace := some exTrace, nextId := 1 }

/-- Example configuration for the single-trace variant (dry-run forced
by the missing API key). -/
def exP1Config : P1.LoggerConfig :=
{ projectID := "pid", logStreamID := "sid", apiKey := "", baseURL := "b", dryRun := true }

/-- Example trace of the single-trace variant. -/
def exP1Trace : P1.Trace :=
{ input := "in", output := "", durationNs := 0, spans := [], tags := [], metadata := [] }

/-- Example single-trace logger with an active trace. -/
def exP1Logger : P1.Logger := { config := exP1Config, currentTrace := some exP1Trace }

/-- Example single-trace logger with no active trace. -/
def exP1NoTrace : P1.Logger := { config := exP1Config, currentTrace := none }

/-- Example fresh buffered logger, as initialisation produces it. -/
def exFreshLogger : V2.Logger :=
{ config := exLoggerConfig, projectID := "pid", logStreamID := "sid",
  accessToken := "", sessionID := "", traceBuffer := [],
  currentTrace := none, nextId := 0 }

/-! Claim theorems. -/

/-- Claim C1: for every buffer state and every Flush call, in both
variants, a successful Flush leaves the buffer empty (in the
single-trace variant, the current-trace slot cleared), and a failed
Flush leaves the whole logger state, in particular the buffer, exactly
as it was before the call, so the caller can retry. -/
theorem flush_success_empties_failure_preserves :
    (∀ (l : V2.Logger) (net : NetOutcome),
      ((V2.FlushWithContext l net).ok = true →
        (V2.FlushWithContext l net).state.traceBuffer = []) ∧
      ((V2.FlushWithContext l net).ok = false →
        (V2.FlushWithContext l net).state = l)) ∧
    (∀ (l : P1.Logger) (net : NetOutcome),
      ((P1.FlushWithContext l net).ok = true →
        (P1.FlushWithContext l net).state.currentTrace = none) ∧
      ((P1.FlushWithContext l net).ok = false →
        (P1.FlushWithContext l net).state = l)) := by
constructor
· intro l net
  unfold V2.FlushWithContext
  by_cases hb : l.traceBuffer = []
  · simp [hb]
  · cases net with
    | transportError => simp [hb]
    | httpStatus code =>
      by_cases hc : code = 200 ∨ code = 201
      · simp [hb, hc]
      · simp [hb, hc]
· intro l net
  unfold P1.FlushWithContext
  cases hcur : l.currentTrace with
  | none => simp
  | some t =>
    have heta : ({ config := l.config, currentTrace := some t } : P1.Logger) = l := by
      rw [← hcur]
    by_cases hd : l.config.dryRun
    · simp [hd]
    · cases net with
      | transportError => simp [hd, heta]
      | httpStatus code =>
        by_cases hc : code = 200 ∨ code = 201
        · simp [hd, hc]
        · simp [hd, hc, heta]

/-- Witness for C1 at a concrete state: a transport failure leaves the
example logger unchanged. -/
theorem flush_success_empties_failure_preserves_witness :
    (V2.FlushWithContext exLogger NetOutcome.transportError).state = exLogger :=
(flush_success_empties_failure_preserves.1 exLogger NetOutcome.transportError).2 (by decide)

/-- Claim C10: in the buffered variant, Flush on an empty buffer returns
success at once, performs no network request and leaves the state
unchanged. -/
theorem flush_empty_buffer_noop (l : V2.Logger) (net : NetOutcome)
    (h : l.traceBuffer = []) :
    V2.FlushWithContext l net = ⟨l, true, false⟩ := by
unfold V2.FlushWithContext
simp [h]

/-- Witness for C10 at a concrete state. -/
theorem flush_empty_buffer_noop_witness :
    V2.FlushWithContext exLoggerActive (NetOutcome.httpStatus 500) = ⟨exLoggerActive, true, false⟩ :=
flush_empty_buffer_noop exLoggerActive (NetOutcome.httpStatus 500) (by decide)

/-- Counterexample to claim C3: in the single-trace variant, Conclude
does not clear the active-trace reference (and there is no flush buffer
to append to): after concluding the example logger the trace is still
current. The claim, which states that Conclude appends the trace to the
flush buffer and clears the active-trace reference, is therefore false
for that variant. -/
theorem conclude_single_variant_keeps_active :
    (P1.Conclude exP1Logger { output := "out", durationNs := 7, tags := [] }).1.currentTrace ≠ none := by
decide

/-- Claim C3 (amended): in the buffered variant, Conclude on an active
trace sets its output, sets its end timestamp to its start timestamp
plus the given duration, merges the given tags into its metadata under
the key completion_tags, appends the finalised trace to the tail of the
flush buffer, and clears the active-trace reference. In the single-trace
variant, Conclude only sets the output and duration and appends the tags;
the trace remains the current trace until Flush. -/
theorem conclude_behavior :
    (∀ (l : V2.Logger) (t : V2.GalileoTrace) (cfg : V2.ConcludeConfig),
      l.currentTrace = some t →
      V2.Conclude l cfg =
        ({ l with traceBuffer := l.traceBuffer ++ [V2.concludedTrace t cfg],
                  currentTrace := none }, []) ∧
      (V2.concludedTrace t cfg).output = some cfg.output ∧
      (V2.concludedTrace t cfg).endTime = some (t.startTime + cfg.durationNs) ∧
      (cfg.tags ≠ [] →
        mget (V2.concludedTrace t cfg).metadata "completion_tags" =
          some (Value.vStr (joinComma cfg.tags)))) ∧
    (∀ (p : P1.Logger) (t : P1.Trace) (cfg : P1.ConcludeConfig),
      p.currentTrace = some t →
      P1.Conclude p cfg =
        ({ p with currentTrace := some { t with output := cfg.output,
                                                durationNs := cfg.durationNs,
                                                tags := t.tags ++ cfg.tags } }, [])) := by
constructor
· intro l t cfg h
  refine ⟨by simp [V2.Conclude, h], ?_, ?_, ?_⟩
  · unfold V2.concludedTrace
    by_cases ht : cfg.tags = [] <;> simp [ht]
  · unfold V2.concludedTrace
    by_cases ht : cfg.tags = [] <;> simp [ht]
  · intro ht
    unfold V2.concludedTrace
    simp [ht, mget_mset_same]
· intro p t cfg h
  simp [P1.Conclude, h]

/-- Witness for C3 at a concrete state: concluding the example buffered
logger (given an active trace) moves the finalised trace to the buffer
tail and clears the reference. -/
theorem conclude_behavior_witness :
    V2.Conclude exLoggerActive { output := "out", durationNs := 7, tags := [] } =
      ({ exLoggerActive with
           traceBuffer := exLoggerActive.traceBuffer ++
             [V2.concludedTrace exTrace { output := "out", durationNs := 7, tags := [] }],
           currentTrace := none }, []) :=
((conclude_behavior.1 exLoggerActive exTrace { output := "out", durationNs := 7, tags := [] }
  (by decide)).1)

/-- Counterexample to claim C4: in the single-trace variant, Conclude
with no active trace is a silent no-op: the state is unchanged but no
warning line is emitted (the function contains no log statement), so the
operation does not produce an observable warning signal. -/
theorem conclude_no_trace_silent_in_single_variant :
    (P1.Conclude exP1NoTrace { output := "out", durationNs := 7, tags := [] }).1 = exP1NoTrace ∧
    (P1.Conclude exP1NoTrace { output := "out", durationNs := 7, tags := [] }).2 = [] := by
decide

/-- Claim C4 (amended): with no active trace every mutating operation
leaves the logger state unchanged in both variants; in the buffered
variant each of AddSpan, AddLlmSpan and Conclude emits a warning line,
while in the single-trace variant AddSpan signals only through its nil
return value and AddLlmSpan and Conclude are silent no-ops. -/
theorem no_active_trace_noop_behavior :
    (∀ (l : V2.Logger), l.currentTrace = none →
      (∀ (cfg : V2.SpanConfig) (now : Int),
        V2.AddSpan l cfg now = (l, ["Warning: AddSpan called without an active trace."])) ∧
      (∀ (cfg : V2.LlmSpanConfig) (now : Int),
        V2.AddLlmSpan l cfg now = (l, ["Warning: AddLlmSpan called without an active trace."])) ∧
      (∀ (cfg : V2.ConcludeConfig),
        V2.Conclude l cfg = (l, ["Warning: Conclude called without an active trace."]))) ∧
    (∀ (p : P1.Logger), p.currentTrace = none →
      (∀ (cfg : P1.SpanConfig), P1.AddSpan p cfg = (p, none, [])) ∧
      (∀ (cfg : P1.LlmSpanConfig), P1.AddLlmSpan p cfg = (p, [])) ∧
      (∀ (cfg : P1.ConcludeConfig), P1.Conclude p cfg = (p, []))) := by
constructor
· intro l h
  refine ⟨fun cfg now => ?_, fun cfg now => ?_, fun cfg => ?_⟩
  · simp [V2.AddSpan, h]
  · simp [V2.AddLlmSpan, h]
  · simp [V2.Conclude, h]
· intro p h
  refine ⟨fun cfg => ?_, fun cfg => ?_, fun cfg => ?_⟩
  · simp [P1.AddSpan, h]
  · simp [P1.AddLlmSpan, h]
  · simp [P1.Conclude, h]

/-- Witness for C4 at a concrete state: AddSpan on a buffered logger
with no active trace warns and changes nothing. -/
theorem no_active_trace_noop_behavior_witness :
    V2.AddSpan exLogger { name := "s", input := Value.vStr "i", output := Value.vStr "o",
                          durationNs := 1, metadata := [], tags := [], error := "",
                          spanType := "" } 3 =
      (exLogger, ["Warning: AddSpan called without an active trace."]) :=
(no_active_trace_noop_behavior.1 exLogger (by decide)).1
  { name := "s", input := Value.vStr "i", output := Value.vStr "o",
    durationNs := 1, metadata := [], tags := [], error := "", spanType := "" } 3

/-- Claim C7: against an active trace, AddLlmSpan appends one span whose
kind is LLM (field spanType in the buffered variant; the llm name marker
in the single-trace variant, whose span struct carries the kind in its
name) and whose metadata contains the model name and the three token
counts from the configuration, while every other caller-supplied
metadata key keeps its value. -/
theorem addLlmSpan_metadata :
    (∀ (l : V2.Logger) (t : V2.GalileoTrace) (cfg : V2.LlmSpanConfig) (now : Int),
      l.currentTrace = some t →
      ∃ s, (V2.AddLlmSpan l cfg now).1.currentTrace = some { t with spans := t.spans ++ [s] } ∧
        s.spanType = "llm" ∧
        mget s.metadata "model" = some (Value.vStr cfg.model) ∧
        mget s.metadata "llm.token_count.input" = some (Value.vInt cfg.numInputTokens) ∧
        mget s.metadata "llm.token_count.output" = some (Value.vInt cfg.numOutputTokens) ∧
        mget s.metadata "llm.token_count.total" = some (Value.vInt cfg.totalTokens) ∧
        (∀ k, k ≠ "model" → k ≠ "llm.token_count.input" → k ≠ "llm.token_count.output" →
          k ≠ "llm.token_count.total" → k ≠ "tags" →
          mget s.metadata k = mget cfg.metadata k)) ∧
    (∀ (p : P1.Logger) (t : P1.Trace) (cfg : P1.LlmSpanConfig),
      p.currentTrace = some t →
      ∃ s, (P1.AddLlmSpan p cfg).1.currentTrace = some { t with spans := t.spans ++ [s] } ∧
        s.name = "llm" ∧
        mget s.metadata "model" = some (Value.vStr cfg.model) ∧
        mget s.metadata "num_input_tokens" = some (Value.vInt cfg.numInputTokens) ∧
        mget s.metadata "num_output_tokens" = some (Value.vInt cfg.numOutputTokens) ∧
        mget s.metadata "total_tokens" = some (Value.vInt cfg.totalTokens) ∧
        (∀ k, k ≠ "model" → k ≠ "num_input_tokens" → k ≠ "num_output_tokens" →
          k ≠ "total_tokens" →
          mget s.metadata k = mget cfg.metadata k)) := by
constructor
· intro l t cfg now h
  refine ⟨V2.llmSpanFromConfig l.nextId cfg now, ?_, rfl, ?_, ?_, ?_, ?_, ?_⟩
  · simp [V2.AddLlmSpan, h]
  · unfold V2.llmSpanFromConfig
    simp only
    rw [mget_mset_ne _ _ _ _ (by decide), mget_mset_ne _ _ _ _ (by decide),
        mget_mset_ne _ _ _ _ (by decide), mget_mset_same]
  · unfold V2.llmSpanFromConfig
    simp only
    rw [mget_mset_ne _ _ _ _ (by decide), mget_mset_ne _ _ _ _ (by decide),
        mget_mset_same]
  · unfold V2.llmSpanFromConfig
    simp only
    rw [mget_mset_ne _ _ _ _ (by decide), mget_mset_same]
  · unfold V2.llmSpanFromConfig
    simp only
    rw [mget_mset_same]
  · intro k h1 h2 h3 h4 h5
    unfold V2.llmSpanFromConfig
    simp only
    rw [mget_mset_ne _ _ _ _ h4, mget_mset_ne _ _ _ _ h3, mget_mset_ne _ _ _ _ h2,
        mget_mset_ne _ _ _ _ h1]
    by_cases ht : cfg.tags = []
    · simp [ht]
    · simp [ht, mget_mset_ne _ _ _ _ h5]
· intro p t cfg h
  refine ⟨P1.llmSpanFromConfig cfg, ?_, rfl, ?_, ?_, ?_, ?_, ?_⟩
  · simp [P1.AddLlmSpan, h]
  · unfold P1.llmSpanFromConfig
    simp only
    rw [mget_mset_ne _ _ _ _ (by decide), mget_mset_ne _ _ _ _ (by decide),
        mget_mset_ne _ _ _ _ (by decide), mget_mset_same]
  · unfold P1.llmSpanFromConfig
    simp only
    rw [mget_mset_ne _ _ _ _ (by decide), mget_mset_ne _ _ _ _ (by decide),
        mget_mset_same]
  · unfold P1.llmSpanFromConfig
    simp only
    rw [mget_mset_ne _ _ _ _ (by decide), mget_mset_same]
  · unfold P1.llmSpanFromConfig
    simp only
    rw [mget_mset_same]
  · intro k h1 h2 h3 h4
    unfold P1.llmSpanFromConfig
    simp only
    rw [mget_mset_ne _ _ _ _ h4, mget_mset_ne _ _ _ _ h3, mget_mset_ne _ _ _ _ h2,
        mget_mset_ne _ _ _ _ h1]

/-- Witness for C7 at a concrete state: the LLM span appended to the
example active trace carries the model and token counts. -/
theorem addLlmSpan_metadata_witness :
    ∃ s, (V2.AddLlmSpan exLoggerActive
            { input := "q", output := "a", model := "m1", numInputTokens := 1,
              numOutputTokens := 1, totalTokens := 2, durationNs := 9,
              metadata := [("temperature", Value.vStr "0.7")], tags := [] } 4).1.currentTrace
          = some { exTrace with spans := exTrace.spans ++ [s] } ∧
      s.spanType = "llm" ∧
      mget s.metadata "model" = some (Value.vStr "m1") ∧
      mget s.metadata "llm.token_count.input" = some (Value.vInt 1) ∧
      mget s.metadata "llm.token_count.output" = some (Value.vInt 1) ∧
      mget s.metadata "llm.token_count.total" = some (Value.vInt 2) ∧
      (∀ k, k ≠ "model" → k ≠ "llm.token_count.input" → k ≠ "llm.token_count.output" →
        k ≠ "llm.token_count.total" → k ≠ "tags" →
        mget s.metadata k = mget [("temperature", Value.vStr "0.7")] k) :=
addLlmSpan_metadata.1 exLoggerActive exTrace
  { input := "q", output := "a", model := "m1", numInputTokens := 1,
    numOutputTokens := 1, totalTokens := 2, durationNs := 9,
    metadata := [("temperature", Value.vStr "0.7")], tags := [] } 4 (by decide)

namespace V2

/-- One add call issued by the caller between StartTrace and Conclude,
carrying the clock reading it observes. -/
inductive AddCall where
| span : SpanConfig → Int → AddCall
| llm : LlmSpanConfig → Int → AddCall
deriving Repr

/-- Span that a given add call creates, given the fresh identifier it
draws. -/
def spanOfCall (id : Nat) : AddCall → GalileoSpan
| AddCall.span cfg now => spanFromConfig id cfg now
| AddCall.llm cfg now => llmSpanFromConfig id cfg now

/-- Folding a sequence of add calls over the logger, in issue order. -/
def runAdds (l : Logger) : List AddCall → Logger
| [] => l
| AddCall.span cfg now :: rest => runAdds (AddSpan l cfg now).1 rest
| AddCall.llm cfg now :: rest => runAdds (AddLlmSpan l cfg now).1 rest

/-- Span list a sequence of add calls should produce, with identifiers
drawn consecutively from the given counter. -/
def buildSpans (id : Nat) : List AddCall → List GalileoSpan
| [] => []
| c :: rest => spanOfCall id c :: buildSpans (id + 1) rest

theorem buildSpans_length (calls : List AddCall) :
    ∀ (id : Nat), (buildSpans id calls).length = calls.length := by
induction calls with
| nil => intro id; rfl
| cons c rest ih => intro id; simp [buildSpans, ih]

theorem buildSpans_get (calls : List AddCall) :
    ∀ (id i : Nat) (hi : i < calls.length),
      (buildSpans id calls)[i]? = some (spanOfCall (id + i) (calls.get ⟨i, hi⟩)) := by
induction calls with
| nil => intro id i hi; exact absurd hi (Nat.not_lt_zero i)
| cons c rest ih =>
  intro id i hi
  cases i with
  | zero => simp [buildSpans]
  | succ n =>
    have hn : n < rest.length := Nat.lt_of_succ_lt_succ hi
    have := ih (id + 1) n hn
    simpa [buildSpans, Nat.add_assoc, Nat.add_comm 1 n] using this

theorem runAdds_currentTrace (calls : List AddCall) :
    ∀ (l : Logger) (t : GalileoTrace), l.currentTrace = some t →
      (runAdds l calls).currentTrace =
        some { t with spans := t.spans ++ buildSpans l.nextId calls } := by
induction calls with
| nil =>
  intro l t h
  simpa [runAdds, buildSpans] using h
| cons c rest ih =>
  intro l t h
  cases c with
  | span cfg now =>
    have hstep := ih ({ l with currentTrace := some { t with spans := t.spans ++ [spanFromConfig l.nextId cfg now] }, nextId := l.nextId + 1 }) ({ t with spans := t.spans ++ [spanFromConfig l.nextId cfg now] }) rfl
    simp only [runAdds, AddSpan, h] at hstep ⊢
    rw [hstep]
    simp [buildSpans, spanOfCall, List.append_assoc]
  | llm cfg now =>
    have hstep := ih ({ l with currentTrace := some { t with spans := t.spans ++ [llmSpanFromConfig l.nextId cfg now] }, nextId := l.nextId + 1 }) ({ t with spans := t.spans ++ [llmSpanFromConfig l.nextId cfg now] }) rfl
    simp only [runAdds, AddLlmSpan, h] at hstep ⊢
    rw [hstep]
    simp [buildSpans, spanOfCall, List.append_assoc]

end V2

namespace P1

/-- One add call of the single-trace variant. -/
inductive AddCall where
| span : SpanConfig → AddCall
| llm : LlmSpanConfig → AddCall
deriving Repr

/-- Span that a given add call creates. -/
def spanOfCall : AddCall → Span
| AddCall.span cfg => spanFromConfig cfg
| AddCall.llm cfg => llmSpanFromConfig cfg

/-- Folding a sequence of add calls over the logger, in issue order. -/
def runAdds (l : Logger) : List AddCall → Logger
| [] => l
| AddCall.span cfg :: rest => runAdds (AddSpan l cfg).1 rest
| AddCall.llm cfg :: rest => runAdds (AddLlmSpan l cfg).1 rest

theorem runAdds_spans (calls : List AddCall) :
    ∀ (l : Logger) (t : Trace), l.currentTrace = some t →
      (runAdds l calls).currentTrace =
        some { t with spans := t.spans ++ calls.map spanOfCall } := by
induction calls with
| nil =>
  intro l t h
  simpa [runAdds] using h
| cons c rest ih =>
  intro l t h
  cases c with
  | span cfg =>
    have hstep := ih ({ l with currentTrace := some { t with spans := t.spans ++ [spanFromConfig cfg] } }) ({ t with spans := t.spans ++ [spanFromConfig cfg] }) rfl
    simp only [runAdds, AddSpan, h] at hstep ⊢
    rw [hstep]
    simp [spanOfCall, List.append_assoc]
  | llm cfg =>
    have hstep := ih ({ l with currentTrace := some { t with spans := t.spans ++ [llmSpanFromConfig cfg] } }) ({ t with spans := t.spans ++ [llmSpanFromConfig cfg] }) rfl
    simp only [runAdds, AddLlmSpan, h] at hstep ⊢
    rw [hstep]
    simp [spanOfCall, List.append_assoc]

end P1

/-- Claim C2: for every sequence of add calls made between StartTrace
and Conclude, in both variants, the span sequence of the trace equals
the call sequence in order: the trace holds exactly one span per call
and its i-th span is the span created by the i-th call. -/
theorem spans_follow_call_order :
    (∀ (l : V2.Logger) (cfg : V2.TraceConfig) (now : Int) (calls : List V2.AddCall)
       (i : Nat) (hi : i < calls.length),
      ∃ t, (V2.runAdds (V2.StartTraceWithContext l cfg now) calls).currentTrace = some t ∧
        t.spans.length = calls.length ∧
        t.spans[i]? = some (V2.spanOfCall (l.nextId + 1 + i) (calls.get ⟨i, hi⟩))) ∧
    (∀ (p : P1.Logger) (cfg : P1.TraceConfig) (calls : List P1.AddCall)
       (i : Nat) (hi : i < calls.length),
      ∃ t, (P1.runAdds (P1.StartTraceWithContext p cfg) calls).currentTrace = some t ∧
        t.spans.length = calls.length ∧
        t.spans[i]? = some (P1.spanOfCall (calls.get ⟨i, hi⟩))) := by
constructor
· intro l cfg now calls i hi
  have hstart : (V2.StartTraceWithContext l cfg now).currentTrace =
      some (V2.traceFromConfig l.nextId cfg now) := rfl
  have hrun := V2.runAdds_currentTrace calls (V2.StartTraceWithContext l cfg now)
    (V2.traceFromConfig l.nextId cfg now) hstart
  refine ⟨_, hrun, ?_, ?_⟩
  · simp [V2.traceFromConfig, V2.StartTraceWithContext, V2.buildSpans_length]
  · have hnext : (V2.StartTraceWithContext l cfg now).nextId = l.nextId + 1 := rfl
    simp [V2.traceFromConfig, hnext, V2.buildSpans_get calls (l.nextId + 1) i hi]
· intro p cfg calls i hi
  have hstart : (P1.StartTraceWithContext p cfg).currentTrace =
      some { input := cfg.input, output := "", durationNs := 0,
             spans := [], tags := cfg.tags, metadata := [] } := rfl
  have hrun := P1.runAdds_spans calls (P1.StartTraceWithContext p cfg) _ hstart
  refine ⟨_, hrun, ?_, ?_⟩
  · simp
  · simp [List.getElem?_map, hi]

/-- Example LLM span configuration for the buffered variant. -/
def exLlmCfg : V2.LlmSpanConfig :=
{ input := "q", output := "a", model := "m1", numInputTokens := 1,
  numOutputTokens := 1, totalTokens := 2, durationNs := 9,
  metadata := [], tags := [] }

/-- Witness for C2 at a concrete state: one LLM call after StartTrace
yields a one-span trace whose single span is the one that call creates. -/
theorem spans_follow_call_order_witness :
    ∃ t, (V2.runAdds (V2.StartTraceWithContext exLogger exTraceConfig 0)
            [V2.AddCall.llm exLlmCfg 4]).currentTrace = some t ∧
      t.spans.length = 1 ∧
      t.spans[0]? = some (V2.spanOfCall (exLogger.nextId + 1 + 0)
        (([V2.AddCall.llm exLlmCfg 4]).get ⟨0, by decide⟩)) :=
spans_follow_call_order.1 exLogger exTraceConfig 0 [V2.AddCall.llm exLlmCfg 4] 0 (by decide)

namespace V2

/-- One mutating logger operation, carrying the clock reading or network
outcome it observes. -/
inductive Op where
| start : TraceConfig → Int → Op
| span : SpanConfig → Int → Op
| llm : LlmSpanConfig → Int → Op
| conclude : ConcludeConfig → Op
| flush : NetOutcome → Op

/-- State reached after one operation. -/
def stepOp (l : Logger) : Op → Logger
| Op.start cfg now => StartTraceWithContext l cfg now
| Op.span cfg now => (AddSpan l cfg now).1
| Op.llm cfg now => (AddLlmSpan l cfg now).1
| Op.conclude cfg => (Conclude l cfg).1
| Op.flush net => (FlushWithContext l net).state

/-- State reached after a sequence of operations. -/
def runOps (l : Logger) (ops : List Op) : Logger :=
ops.foldl stepOp l

/-- Identifier freshness invariant: every buffered trace has an
identifier below the counter, and the active trace (when present) has an
identifier below the counter and distinct from every buffered one. This
models what the code obtains from drawing fresh UUIDs. -/
def IdsFresh (l : Logger) : Prop :=
(∀ t ∈ l.traceBuffer, t.id < l.nextId) ∧
(∀ t, l.currentTrace = some t → t.id < l.nextId ∧ ∀ u ∈ l.traceBuffer, u.id ≠ t.id)

theorem concludedTrace_id (t : GalileoTrace) (cfg : ConcludeConfig) :
    (concludedTrace t cfg).id = t.id := by
unfold concludedTrace
by_cases ht : cfg.tags = [] <;> simp [ht]

theorem stepOp_idsFresh (l : Logger) (op : Op) (h : IdsFresh l) : IdsFresh (stepOp l op) := by
obtain ⟨hbuf, hcur⟩ := h
cases op with
| start cfg now =>
  refine ⟨fun t ht => ?_, fun t ht => ?_⟩
  · exact Nat.lt_succ_of_lt (hbuf t ht)
  · simp only [stepOp, StartTraceWithContext] at ht
    injection ht with ht
    constructor
    · rw [← ht]; exact Nat.lt_succ_self _
    · intro u hu
      rw [← ht]
      exact Nat.ne_of_lt (hbuf u hu)
| span cfg now =>
  cases hc : l.currentTrace with
  | none =>
    simp only [stepOp, AddSpan, hc]
    exact ⟨hbuf, fun t ht => by rw [hc] at ht; cases ht⟩
  | some t0 =>
    simp only [stepOp, AddSpan, hc]
    refine ⟨fun t ht => Nat.lt_succ_of_lt (hbuf t ht), fun t ht => ?_⟩
    injection ht with ht
    obtain ⟨h1, h2⟩ := hcur t0 hc
    rw [← ht]
    exact ⟨Nat.lt_succ_of_lt h1, h2⟩
| llm cfg now =>
  cases hc : l.currentTrace with
  | none =>
    simp only [stepOp, AddLlmSpan, hc]
    exact ⟨hbuf, fun t ht => by rw [hc] at ht; cases ht⟩
  | some t0 =>
    simp only [stepOp, AddLlmSpan, hc]
    refine ⟨fun t ht => Nat.lt_succ_of_lt (hbuf t ht), fun t ht => ?_⟩
    injection ht with ht
    obtain ⟨h1, h2⟩ := hcur t0 hc
    rw [← ht]
    exact ⟨Nat.lt_succ_of_lt h1, h2⟩
| conclude cfg =>
  cases hc : l.currentTrace with
  | none =>
    simp only [stepOp, Conclude, hc]
    exact ⟨hbuf, hcur⟩
  | some t0 =>
    simp only [stepOp, Conclude, hc]
    refine ⟨fun t ht => ?_, fun t ht => by cases ht⟩
    rcases List.mem_append.1 ht with hmem | hmem
    · exact hbuf t hmem
    · rcases List.mem_singleton.1 hmem with rfl
      rw [concludedTrace_id]
      exact (hcur t0 hc).1
| flush net =>
  simp only [stepOp, FlushWithContext]
  by_cases hb : l.traceBuffer = []
  · simp only [hb, if_true]
    exact ⟨hbuf, hcur⟩
  · simp only [hb, if_false]
    cases net with
    | transportError => exact ⟨hbuf, hcur⟩
    | httpStatus code =>
      by_cases hcode : code = 200 ∨ code = 201
      · simp only [hcode, if_true]
        refine ⟨fun t ht => (by cases ht), fun t ht => ?_⟩
        exact ⟨(hcur t ht).1, fun u hu => (by cases hu)⟩
      · simp only [hcode, if_false]
        exact ⟨hbuf, hcur⟩

theorem runOps_idsFresh (ops : List Op) :
    ∀ (l : Logger), IdsFresh l → IdsFresh (runOps l ops) := by
induction ops with
| nil => intro l h; exact h
| cons op rest ih =>
  intro l h
  exact ih (stepOp l op) (stepOp_idsFresh l op h)

/-- Unconcluded-fields invariant: the active trace, when present, has no
output and no end timestamp. -/
def ActiveUnconcluded (l : Logger) : Prop :=
∀ t, l.currentTrace = some t → t.output = none ∧ t.endTime = none

theorem stepOp_activeUnconcluded (l : Logger) (op : Op) (h : ActiveUnconcluded l) :
    ActiveUnconcluded (stepOp l op) := by
cases op with
| start cfg now =>
  intro t ht
  simp only [stepOp, StartTraceWithContext] at ht
  injection ht with ht
  rw [← ht]
  exact ⟨rfl, rfl⟩
| span cfg now =>
  cases hc : l.currentTrace with
  | none =>
    simp only [stepOp, AddSpan, hc]
    intro t ht
    rw [hc] at ht
    cases ht
  | some t0 =>
    simp only [stepOp, AddSpan, hc]
    intro t ht
    injection ht with ht
    rw [← ht]
    exact h t0 hc
| llm cfg now =>
  cases hc : l.currentTrace with
  | none =>
    simp only [stepOp, AddLlmSpan, hc]
    intro t ht
    rw [hc] at ht
    cases ht
  | some t0 =>
    simp only [stepOp, AddLlmSpan, hc]
    intro t ht
    injection ht with ht
    rw [← ht]
    exact h t0 hc
| conclude cfg =>
  cases hc : l.currentTrace with
  | none =>
    simp only [stepOp, Conclude, hc]
    intro t ht
    rw [hc] at ht
    cases ht
  | some t0 =>
    simp only [stepOp, Conclude, hc]
    intro t ht
    cases ht
| flush net =>
  simp only [stepOp, FlushWithContext]
  by_cases hb : l.traceBuffer = []
  · simp only [hb, if_true]; exact h
  · simp only [hb, if_false]
    cases net with
    | transportError => exact h
    | httpStatus code =>
      by_cases hcode : code = 200 ∨ code = 201
      · simp only [hcode, if_true]
        intro t ht
        exact h t ht
      · simp only [hcode, if_false]
        exact h

theorem runOps_activeUnconcluded (ops : List Op) :
    ∀ (l : Logger), ActiveUnconcluded l → ActiveUnconcluded (runOps l ops) := by
induction ops with
| nil => intro l h; exact h
| cons op rest ih =>
  intro l h
  exact ih (stepOp l op) (stepOp_activeUnconcluded l op h)

end V2

/-- Claim C5: starting from a fresh logger (empty buffer, no active
trace), after any sequence of operations that leaves a trace active,
calling StartTrace installs the fresh trace as the active one, leaves
the buffer unchanged, and the discarded trace is not in the buffer: the
prior unconcluded trace is dropped entirely, so at most one in-progress
trace exists per logger. -/
theorem startTrace_discards_prior_active
    (l0 : V2.Logger) (hbuf0 : l0.traceBuffer = []) (hcur0 : l0.currentTrace = none)
    (ops : List V2.Op) (tPrev : V2.GalileoTrace)
    (hcur : (V2.runOps l0 ops).currentTrace = some tPrev)
    (cfg : V2.TraceConfig) (now : Int) :
    (V2.StartTraceWithContext (V2.runOps l0 ops) cfg now).currentTrace
        = some (V2.traceFromConfig (V2.runOps l0 ops).nextId cfg now) ∧
    (V2.StartTraceWithContext (V2.runOps l0 ops) cfg now).traceBuffer
        = (V2.runOps l0 ops).traceBuffer ∧
    tPrev ∉ (V2.StartTraceWithContext (V2.runOps l0 ops) cfg now).traceBuffer := by
have hinit : V2.IdsFresh l0 := by
  constructor
  · intro t ht; rw [hbuf0] at ht; cases ht
  · intro t ht; rw [hcur0] at ht; cases ht
have hfresh := V2.runOps_idsFresh ops l0 hinit
refine ⟨rfl, rfl, ?_⟩
intro hmem
have hne := (hfresh.2 tPrev hcur).2 tPrev hmem
exact hne rfl

/-- Witness for C5 at a concrete state: after starting and not
concluding one trace, a second StartTrace installs the fresh trace,
keeps the buffer as it was, and the discarded trace is not buffered. -/
theorem startTrace_discards_prior_active_witness :
    (V2.StartTraceWithContext (V2.runOps exFreshLogger [V2.Op.start exTraceConfig 5]) exTraceConfig 9).currentTrace
        = some (V2.traceFromConfig (V2.runOps exFreshLogger [V2.Op.start exTraceConfig 5]).nextId exTraceConfig 9) ∧
    (V2.StartTraceWithContext (V2.runOps exFreshLogger [V2.Op.start exTraceConfig 5]) exTraceConfig 9).traceBuffer
        = (V2.runOps exFreshLogger [V2.Op.start exTraceConfig 5]).traceBuffer ∧
    exTrace ∉ (V2.StartTraceWithContext (V2.runOps exFreshLogger [V2.Op.start exTraceConfig 5]) exTraceConfig 9).traceBuffer :=
startTrace_discards_prior_active exFreshLogger rfl rfl
  [V2.Op.start exTraceConfig 5] exTrace (by decide) exTraceConfig 9

/-- Claim C9: in every state reachable from a fresh logger, a trace that
has been started but not yet concluded has its output and its end
timestamp unset (its duration, end minus start, is thereby also unset):
StartTrace, AddSpan and AddLlmSpan never set these fields of the active
trace; only Conclude does, at which point the trace leaves the active
slot. -/
theorem active_trace_fields_unset
    (l0 : V2.Logger) (hcur0 : l0.currentTrace = none)
    (ops : List V2.Op) (t : V2.GalileoTrace)
    (hcur : (V2.runOps l0 ops).currentTrace = some t) :
    t.output = none ∧ t.endTime = none := by
have hinit : V2.ActiveUnconcluded l0 := by
  intro u hu; rw [hcur0] at hu; cases hu
exact V2.runOps_activeUnconcluded ops l0 hinit t hcur

/-- Witness for C9 at a concrete state: the trace active after a start
and one span addition has no output and no end timestamp. -/
theorem active_trace_fields_unset_witness :
    ∃ t, (V2.runOps exFreshLogger [V2.Op.start exTraceConfig 5, V2.Op.llm exLlmCfg 6]).currentTrace = some t ∧
      t.output = none ∧ t.endTime = none := by
refine ⟨_, rfl, active_trace_fields_unset exFreshLogger rfl
  [V2.Op.start exTraceConfig 5, V2.Op.llm exLlmCfg 6] _ rfl⟩

/-- Example v2 configuration with the credential absent. -/
def exNoKeyConfig : V2.LoggerConfig :=
{ projectName := "p", logStreamName := "s", apiKey := "", authMethod := "api_key" }

/-- Counterexample to claim C6: in the v2 variant a missing credential
does not put the logger into a dry-run mode; initialisation aborts
fatally (log.Fatal) and no logger is produced, whatever the network
would answer. -/
theorem v2_missing_key_fatal :
    V2.NewLoggerWithConfig exNoKeyConfig CreateResult.transportError ListResult.transportError CreateResult.transportError ListResult.transportError CreateResult.transportError = V2.InitResult.fatal "GALILEO_API_KEY must be provided" := rfl

/-- Example single-trace configuration with every credential and
identifier absent. -/
def exP1NoKeyConfig : P1.LoggerConfig :=
{ projectID := "", logStreamID := "", apiKey := "", baseURL := "", dryRun := false }

/-- Claim C6 (amended): in the single-trace variant, a missing
credential or missing project/log-stream identifier at initialisation
puts the logger in dry-run mode; every operation then succeeds locally
(they are total and never return failure), and Flush succeeds, performs
no network request, writes the serialised trace to the local log sink
and clears the current trace. In the v2 variant a missing credential
instead aborts initialisation. -/
theorem dry_run_mode_behavior :
    (∀ (config : P1.LoggerConfig),
      (config.apiKey = "" ∨ config.projectID = "" ∨ config.logStreamID = "") →
      (P1.NewLoggerWithConfig config).config.dryRun = true) ∧
    (∀ (l : P1.Logger) (t : P1.Trace) (net : NetOutcome),
      l.config.dryRun = true → l.currentTrace = some t →
      P1.FlushWithContext l net = ⟨{ l with currentTrace := none }, true, false, some t⟩) := by
constructor
· intro config h
  simp only [P1.NewLoggerWithConfig]
  split_ifs with h1 h2 h3 h4 <;> cases hdr : config.dryRun <;> simp_all
· intro l t net hd hc
  unfold P1.FlushWithContext
  rw [hc]
  simp [hd]

/-- Witness for C6 at a concrete state: the all-empty configuration
yields a dry-run logger, and a dry-run flush of the example logger
succeeds locally with no network call. -/
theorem dry_run_mode_behavior_witness :
    (P1.NewLoggerWithConfig exP1NoKeyConfig).config.dryRun = true ∧
    P1.FlushWithContext exP1Logger NetOutcome.transportError =
      ⟨{ exP1Logger with currentTrace := none }, true, false, some exP1Trace⟩ :=
⟨dry_run_mode_behavior.1 exP1NoKeyConfig (Or.inl rfl),
 dry_run_mode_behavior.2 exP1Logger exP1Trace NetOutcome.transportError rfl rfl⟩

/-- Correctness of the exact-name scan: a hit is the identifier of a
listed entry whose name is exactly the requested one. -/
theorem findByName_spec (entries : List RemoteEntry) :
    ∀ (name id : String), V2.findByName entries name = some id →
      ∃ e ∈ entries, e.id = id ∧ e.name = name := by
induction entries with
| nil => intro name id h; cases h
| cons e rest ih =>
  intro name id h
  by_cases he : e.name = name
  · rw [V2.findByName, if_pos he] at h
    injection h with h
    exact ⟨e, List.mem_cons_self e rest, h, he⟩
  · rw [V2.findByName, if_neg he] at h
    obtain ⟨u, hu, h1, h2⟩ := ih name id h
    exact ⟨u, List.mem_cons_of_mem e hu, h1, h2⟩

/-- Example remote listing entry whose name does not match the requested
log-stream name. -/
def exOtherEntry : RemoteEntry := { id := "s1", name := "other-stream" }

/-- Counterexample to claim C8: in the single-trace variant the
log-stream resolution does not look for an exact name match. With a
listing whose only entry is named other-stream, resolving the name
mystream returns the identifier of that non-matching entry and never
calls the creation endpoint, although no exact-name match exists. -/
theorem logstream_first_entry_not_exact :
    (P1.getOrCreateLogStreamID "pid" "mystream" (ListResult.response 200 [exOtherEntry]) CreateResult.transportError).result = Except.ok "s1" ∧
    (P1.getOrCreateLogStreamID "pid" "mystream" (ListResult.response 200 [exOtherEntry]) CreateResult.transportError).createCalled = false ∧
    exOtherEntry.name ≠ "mystream" ∧ exOtherEntry.id = "s1" := by
refine ⟨rfl, rfl, ?_, rfl⟩
decide

/-- Claim C8 (amended): v2 project resolution (and likewise its
log-stream resolution) returns, without creating anything, the
identifier of the listed entry whose name exactly matches the requested
name whenever one exists, and calls the creation endpoint on a 200
listing only when no exact match exists. The single-trace variant
resolves log streams differently: it returns the identifier of the
first entry of the (server-filtered) listing regardless of its name,
creating only when the listing is empty. -/
theorem resolve_by_name_behavior :
    (∀ (projectName : String) (entries : List RemoteEntry) (create : CreateResult) (id : String),
      V2.findByName entries projectName = some id →
      V2.getOrCreateProject projectName (ListResult.response 200 entries) create =
        ⟨Except.ok id, false⟩) ∧
    (∀ (projectName : String) (entries : List RemoteEntry) (id : String),
      V2.findByName entries projectName = some id →
      ∃ e ∈ entries, e.id = id ∧ e.name = projectName) ∧
    (∀ (projectName : String) (entries : List RemoteEntry) (create : CreateResult),
      (V2.getOrCreateProject projectName (ListResult.response 200 entries) create).createCalled = true →
      V2.findByName entries projectName = none) ∧
    (∀ (e : RemoteEntry) (rest : List RemoteEntry),
      P1.getLogStreamIDByName (ListResult.response 200 (e :: rest)) = Except.ok e.id) := by
refine ⟨?_, ?_, ?_, ?_⟩
· intro projectName entries create id h
  simp [V2.getOrCreateProject, h]
· intro projectName entries id h
  exact findByName_spec entries projectName id h
· intro projectName entries create h
  cases hf : V2.findByName entries projectName with
  | none => rfl
  | some id =>
    rw [show V2.getOrCreateProject projectName (ListResult.response 200 entries) create = ⟨Except.ok id, false⟩ from by simp [V2.getOrCreateProject, hf]] at h
    cases h
· intro e rest
  rfl

/-- Example remote listing entry matching the requested project name. -/
def exProjEntry : RemoteEntry := { id := "p7", name := "proj" }

/-- Witness for C8 at a concrete state: a listing containing an exact
match resolves to its identifier without creating a duplicate. -/
theorem resolve_by_name_behavior_witness :
    V2.getOrCreateProject "proj" (ListResult.response 200 [exProjEntry]) CreateResult.transportError = ⟨Except.ok "p7", false⟩ :=
resolve_by_name_behavior.1 "proj" [exProjEntry] CreateResult.transportError "p7" (by decide)
